import Mathlib

/-!
Verification of the scan-data ingestion pipeline of `python_beamscanner/nearfield.py`
(class `ScanData`: the static smoothing filter `kaiser_smooth`, the loader
`load_csv_data`, and the derived accessors `x_values` / `y_values`).

Real values are modelled as rationals. Machine-float special values that the
source can produce (the NaN obtained from the numpy scalar division `0.0 / 0`)
are modelled explicitly by the type `NpFloat`. Runtime exceptions are modelled
by the type `LoadError`.
-/

/-- Full discrete convolution value at index `k`:
`(a * v)[k] = sum over i of a[i] * v[k - i]`, entries outside either list
contributing zero. This is the value numpy.convolve computes at position `k`
of the full convolution. -/
def convFull (a v : List ℚ) (k : ℕ) : ℚ :=
  ((List.range (k + 1)).map fun i => a.getD i 0 * v.getD (k - i) 0).sum

/-- numpy.convolve(a, v, mode="valid"): the central
`max(len a, len v) - min(len a, len v) + 1` entries of the full convolution,
those where the shorter sequence fully overlaps the longer one.
numpy raises ValueError when either argument is empty; the model is only
applied to nonempty arguments. -/
def convolve_valid (a v : List ℚ) : List ℚ :=
  (List.range (max a.length v.length - min a.length v.length + 1)).map
    fun j => convFull a v (j + min a.length v.length - 1)

/-- numpy.kaiser(M, beta). The numpy source special-cases `M == 1`, returning
`np.ones(1)`; otherwise it returns the M entries
`i0(beta * sqrt(1 - ((n - alpha)/alpha)^2)) / i0(beta)` with
`alpha = (M-1)/2`, computed in floating point through the modified Bessel
function I0. Those entries are transcendental, so they are abstracted here by
the oracle `i0w`; every theorem below either uses only the `M = 1` branch or
is independent of the entry values. -/
def np_kaiser (M : ℕ) (beta : ℚ) (i0w : ℕ → ℚ) : List ℚ :=
  if M = 1 then [1] else (List.range M).map i0w

/-- ScanData.kaiser_smooth (nearfield.py lines 68-93), for `window_len ≥ 1`.

Line 90, `s = np.r_[x[window_len - 1:0:-1], x, x[-1:-window_len:-1]]`:
for `1 ≤ window_len ≤ len x` the slice `x[window_len-1:0:-1]` is the reverse
of `x[1:window_len]`, and `x[-1:-window_len:-1]` is the reverse of
`x[len x - window_len + 1:]`.

Lines 91-93: build the Kaiser window, normalize it to unit sum, convolve in
valid mode (the window is the first numpy.convolve argument, the padded signal
the second; convolution is commutative so the argument order is immaterial),
then trim `floor(window_len / 2)` samples from each end. -/
def ScanData.kaiser_smooth (x : List ℚ) (beta : ℚ) (window_len : ℕ) (i0w : ℕ → ℚ) : List ℚ :=
  let s := ((x.take window_len).drop 1).reverse ++ x ++
    (x.drop (x.length - window_len + 1)).reverse
  let w := np_kaiser window_len beta i0w
  let wn := w.map (fun v => v / w.sum)
  let y := convolve_valid wn s
  (y.take (y.length - window_len / 2)).drop (window_len / 2)

/-- numpy float value: either an ordinary (rational) value or the NaN that
the source produces through the numpy scalar division `0.0 / 0` when an axis
has a single unique coordinate (np.ptp gives 0.0 and `points - 1` is 0; a
numpy float64 divided by integer 0 warns and yields NaN instead of raising
ZeroDivisionError). -/
inductive NpFloat where
  | nan : NpFloat
  | val : ℚ → NpFloat
deriving DecidableEq, Repr

/-- Runtime errors that a call of load_csv_data can raise, plus (for stating
the specification claims) the two error classes the specification names.

* `malformedInput`: np.loadtxt fails (empty input, ragged rows, non-numeric
  fields, a single row producing a 1-D array) or a column access `data[:,j]`
  raises IndexError because the table has at most `j` columns.
* `insufficientGrid` and `gridMismatch`: the InsufficientGridError and
  GridMismatchError of the specification. No such classes exist anywhere in
  the source and the loader never raises them; the constructors exist only so
  the corresponding claims can be stated and refuted.
* `nameError`: the calibration-smoothing branch (line 138) calls the bare
  name `kaiser_smooth`, which is defined only as a static method of ScanData
  and not at module scope, so Python raises NameError when resolving the
  callee, before any argument is evaluated.
* `attributeError`: lines 145 and 147 call `np.griddata`; numpy has no
  attribute `griddata` (the scipy import of griddata on line 16 is unused),
  so Python raises AttributeError when resolving the callee, before any
  argument is evaluated. -/
inductive LoadError where
  | malformedInput : LoadError
  | insufficientGrid : LoadError
  | gridMismatch : LoadError
  | nameError : LoadError
  | attributeError : LoadError
deriving DecidableEq, Repr

/-- State of a ScanData instance: the six geometry fields set by
load_csv_data lines 126-131 together with `s21` and `cal_table`
(nearfield.py lines 58-66). A `none` field is a field still holding the
`None` from `__init__`. `s21` and `cal_table` are modelled as optional
matrices of complex values (pairs of rationals); the loader never actually
constructs them (see the attributeError documentation above), it can only
preserve whatever they held. -/
structure ScanData where
  x_limits : Option (ℚ × ℚ)
  y_limits : Option (ℚ × ℚ)
  x_points : Option ℕ
  y_points : Option ℕ
  x_step : Option NpFloat
  y_step : Option NpFloat
  s21 : Option (List (List (ℚ × ℚ)))
  cal_table : Option (List (List (ℚ × ℚ)))
deriving DecidableEq, Repr

/-- ScanData.__init__ (lines 58-66): every field is None. -/
def ScanData.init : ScanData :=
  ⟨none, none, none, none, none, none, none, none⟩

/-- Number of columns of the parsed table (the common row length). -/
def tblWidth (tbl : List (List ℚ)) : ℕ := (tbl.headD []).length

/-- Column `j` of the parsed table, `data[:,j]`. Only used under the guard
that `j` is below the table width. -/
def tblCol (tbl : List (List ℚ)) (j : ℕ) : List ℚ :=
  tbl.map fun r => r.getD j 0

/-- The loader reaches line 126 (the first field assignment) if and only if
np.loadtxt produced a 2-D array (at least two rows, all of one length; a
single row gives a 1-D array on which `data[:,0]` raises IndexError, ragged
or non-numeric input raises inside loadtxt, and an empty input gives an empty
array on which `data[:,0]` raises IndexError) and the width is at least 2 so
that the coordinate column accesses `data[:,0]` and `data[:,1]` on lines
123-124 succeed. All of those failures precede every field assignment. -/
def parseOk (tbl : List (List ℚ)) : Prop :=
  2 ≤ tbl.length ∧ (∀ r ∈ tbl, r.length = tblWidth tbl) ∧ 2 ≤ tblWidth tbl

instance (tbl : List (List ℚ)) : Decidable (parseOk tbl) := by
  unfold parseOk
  infer_instance

/-- Insert a value into a sorted list, keeping it sorted. -/
def insertSorted (a : ℚ) : List ℚ → List ℚ
  | [] => [a]
  | b :: l => if a ≤ b then a :: b :: l else b :: insertSorted a l

/-- Ascending insertion sort. -/
def sortAsc (l : List ℚ) : List ℚ := l.foldr insertSorted []

/-- np.unique: the sorted list of distinct values. -/
def np_unique (l : List ℚ) : List ℚ := (sortAsc l).dedup

/-- np.amin of a nonempty array (numpy raises on an empty one; the model
only applies it to nonempty columns, and returns 0 on [] arbitrarily). -/
def np_amin : List ℚ → ℚ
  | [] => 0
  | a :: l => l.foldl min a

/-- np.amax of a nonempty array, as for np_amin. -/
def np_amax : List ℚ → ℚ
  | [] => 0
  | a :: l => l.foldl max a

/-- np.ptp: peak to peak, amax - amin. -/
def np_ptp (l : List ℚ) : ℚ := np_amax l - np_amin l

/-- np.linspace(a, b, n): n evenly spaced samples from a to b inclusive,
sample i being `a + i * (b - a) / (n - 1)`. For n = 1 numpy returns [a]
(the model term reduces to `a + 0` because rational division by zero is 0);
for n = 0 it returns []. -/
def np_linspace (a b : ℚ) (n : ℕ) : List ℚ :=
  (List.range n).map fun i : ℕ => a + (i : ℚ) * ((b - a) / ((n - 1 : ℕ) : ℚ))

/-- Lines 123-131 of load_csv_data: the six geometry assignments performed
once the coordinate columns have been extracted. `x_step` is
`np.ptp(x_in_vals) / (x_points - 1)` (line 128), which for a single unique
value is the numpy scalar division 0.0 / 0 = NaN (with a RuntimeWarning, not
an exception); likewise for y (line 129). Nothing in lines 123-131 can raise
once the two coordinate columns exist, so the six assignments always complete
together. -/
def loadGeometry (st : ScanData) (tbl : List (List ℚ)) : ScanData :=
  let x_in_vals := np_unique (tblCol tbl 0)
  let y_in_vals := np_unique (tblCol tbl 1)
  { st with
    x_points := some x_in_vals.length
    y_points := some y_in_vals.length
    x_step := some (if x_in_vals.length = 1 then NpFloat.nan
      else NpFloat.val (np_ptp x_in_vals / ((x_in_vals.length - 1 : ℕ) : ℚ)))
    y_step := some (if y_in_vals.length = 1 then NpFloat.nan
      else NpFloat.val (np_ptp y_in_vals / ((y_in_vals.length - 1 : ℕ) : ℚ)))
    x_limits := some (np_amin x_in_vals, np_amax x_in_vals)
    y_limits := some (np_amin y_in_vals, np_amax y_in_vals) }

/-- ScanData.load_csv_data (lines 95-147). Result: the instance state after
the call together with the error the call raises (every path raises; no call
returns normally). `cal_smooth` is the Python argument with 0 standing for
the falsy values None and 0.

Control flow of the source:
* parsing or coordinate-column failure (see parseOk): the error precedes
  every assignment, the state is unchanged;
* line 134 `data[:,2] + 1j*data[:,3]`: IndexError when the width is below 4,
  after the geometry assignments;
* lines 136-143, when cal_table is truthy: with a truthy cal_smooth the bare
  callee `kaiser_smooth` raises NameError (resolved before its arguments);
  with a falsy cal_smooth, `data[:,4]` / `data[:,5]` raise IndexError when
  the width is below 6;
* lines 145 and 147: resolving the callee `np.griddata` raises
  AttributeError, so neither cal_table nor s21 is ever assigned. -/
def ScanData.load_csv_data (st : ScanData) (tbl : List (List ℚ))
    (cal_table : Bool) (cal_smooth : ℕ) : ScanData × Option LoadError :=
  if parseOk tbl then
    (loadGeometry st tbl,
      if tblWidth tbl < 4 then some LoadError.malformedInput
      else if cal_table then
        if cal_smooth ≠ 0 then some LoadError.nameError
        else if tblWidth tbl < 6 then some LoadError.malformedInput
        else some LoadError.attributeError
      else some LoadError.attributeError)
  else (st, some LoadError.malformedInput)

/-- Property ScanData.x_values (lines 224-234):
`np.linspace(x_limits[0], x_limits[1], x_points)`. On an instance whose
fields are still None the subscript `self.__x_limits[0]` raises TypeError,
modelled by `none`. -/
def ScanData.x_values (st : ScanData) : Option (List ℚ) :=
  match st.x_limits, st.x_points with
  | some lim, some n => some (np_linspace lim.1 lim.2 n)
  | _, _ => none

/-- Property ScanData.y_values (lines 236-246), as for x_values. -/
def ScanData.y_values (st : ScanData) : Option (List ℚ) :=
  match st.y_limits, st.y_points with
  | some lim, some n => some (np_linspace lim.1 lim.2 n)
  | _, _ => none

/-- The 20-row 4 by 5 raster of the specification scenario: x in {0,1,2,3},
y in {0,10,20,30,40}, raster ordered, transmission 1+0j, reference 1+0j. -/
def table20 : List (List ℚ) :=
  [[0, 0, 1, 0, 1, 0], [1, 0, 1, 0, 1, 0], [2, 0, 1, 0, 1, 0], [3, 0, 1, 0, 1, 0],
   [0, 10, 1, 0, 1, 0], [1, 10, 1, 0, 1, 0], [2, 10, 1, 0, 1, 0], [3, 10, 1, 0, 1, 0],
   [0, 20, 1, 0, 1, 0], [1, 20, 1, 0, 1, 0], [2, 20, 1, 0, 1, 0], [3, 20, 1, 0, 1, 0],
   [0, 30, 1, 0, 1, 0], [1, 30, 1, 0, 1, 0], [2, 30, 1, 0, 1, 0], [3, 30, 1, 0, 1, 0],
   [0, 40, 1, 0, 1, 0], [1, 40, 1, 0, 1, 0], [2, 40, 1, 0, 1, 0], [3, 40, 1, 0, 1, 0]]

/-- The 19-row incomplete raster of the specification scenario: table20 with
its final row removed; both axes still show all their unique values. -/
def table19 : List (List ℚ) := table20.dropLast

/-- A 2-row table whose x column holds a single unique value 0 and whose y
column holds the two values 0 and 1. -/
def tableSingleX : List (List ℚ) :=
  [[0, 0, 1, 0, 1, 0], [0, 1, 1, 0, 1, 0]]

/-- A uniform 2-column table: np.loadtxt accepts it, the coordinate columns
exist, but `data[:,2]` on line 134 raises IndexError, after the geometry
fields were assigned. -/
def tableTwoCols : List (List ℚ) := [[0, 0], [1, 1]]

lemma range_map_getD (l : List ℚ) :
    (List.range l.length).map (fun j => l.getD j 0) = l := by
  apply List.ext_getElem
  · simp
  · intro i h1 h2
    simp only [List.getElem_map, List.getElem_range]
    exact List.getD_eq_getElem l 0 h2

lemma convFull_single_one (x : List ℚ) (j : ℕ) :
    convFull [1] x j = x.getD j 0 := by
  unfold convFull
  rw [List.range_succ_eq_map]
  simp only [List.map_cons, List.map_map, List.sum_cons]
  have hz : ((List.range j).map
      ((fun i => ([(1 : ℚ)].getD i 0 * x.getD (j - i) 0)) ∘ Nat.succ)).sum = 0 := by
    apply List.sum_eq_zero
    intro q hq
    simp only [List.mem_map, Function.comp] at hq
    obtain ⟨i, _, rfl⟩ := hq
    simp [List.getD]
  rw [hz]
  simp [List.getD]

/-- C8: For every input signal (at least one sample) and every beta that is
at least 0, kaiser_smooth with window_len = 1 returns the input sequence
unchanged: the single-tap window is the identity filter. -/
theorem kaiser_smooth_window_one_identity (x : List ℚ) (beta : ℚ) (i0w : ℕ → ℚ)
    (hx : 1 ≤ x.length) (hb : 0 ≤ beta) :
    ScanData.kaiser_smooth x beta 1 i0w = x := by
  have h1 : (x.take 1).drop 1 = [] := by
    apply List.drop_eq_nil_of_le
    simp
  have h2 : x.drop (x.length - 1 + 1) = [] := by
    have h : x.length - 1 + 1 = x.length := by omega
    rw [h, List.drop_length]
  have hw : np_kaiser 1 beta i0w = [1] := by simp [np_kaiser]
  simp only [ScanData.kaiser_smooth, hw, h1, h2, List.reverse_nil, List.nil_append,
    List.append_nil, List.sum_cons, List.sum_nil, add_zero, div_one, List.map_cons,
    List.map_nil]
  have hy : convolve_valid [1] x = x := by
    unfold convolve_valid
    simp only [List.length_cons, List.length_nil, zero_add]
    rw [Nat.max_eq_right hx, Nat.min_eq_left hx]
    have harith : x.length - 1 + 1 = x.length := by omega
    rw [harith]
    have hmap : ∀ j ∈ List.range x.length,
        convFull [1] x (j + 1 - 1) = x.getD j 0 := by
      intro j _
      rw [Nat.add_sub_cancel, convFull_single_one]
    rw [List.map_congr_left hmap, range_map_getD]
  rw [hy]
  simp

theorem kaiser_smooth_window_one_identity_witness :
    1 ≤ ([5, 7] : List ℚ).length ∧ (0 : ℚ) ≤ 1 ∧
      ScanData.kaiser_smooth [5, 7] 1 1 (fun _ => 1) = [5, 7] :=
  ⟨by decide, by decide,
    kaiser_smooth_window_one_identity [5, 7] 1 (fun _ => 1) (by decide) (by decide)⟩

/-- C2: evaluation of the code at a failing input. A signal of 4 samples
smoothed with the even window length 2 yields 3 samples, not 4: the valid-mode
convolution has N + window_len - 1 samples and the trim removes
floor(window_len / 2) from each end, so every even window length loses one
sample. The repository test test_kaiser_smooth asserts equal lengths for the
even window lengths 10 and 20, so the code contradicts its own tests. The
window entries are irrelevant to the length; the oracle used here gives the
rectangular entries that np.kaiser produces for beta = 0. -/
theorem kaiser_smooth_even_window_drops_sample :
    (ScanData.kaiser_smooth [0, 1, 2, 3] 1 2 (fun _ => 1)).length = 3 := by decide

lemma load_csv_data_fst (st : ScanData) (tbl : List (List ℚ)) (cal_table : Bool)
    (cal_smooth : ℕ) (hp : parseOk tbl) :
    (ScanData.load_csv_data st tbl cal_table cal_smooth).1 = loadGeometry st tbl := by
  unfold ScanData.load_csv_data
  rw [if_pos hp]

lemma load_csv_data_snd_attributeError (st : ScanData) (tbl : List (List ℚ))
    (cal_table : Bool) (cal_smooth : ℕ) (hp : parseOk tbl) (h4 : 4 ≤ tblWidth tbl)
    (hcal : cal_table = true → cal_smooth = 0 ∧ 6 ≤ tblWidth tbl) :
    (ScanData.load_csv_data st tbl cal_table cal_smooth).2 =
      some LoadError.attributeError := by
  unfold ScanData.load_csv_data
  rw [if_pos hp]
  simp only
  rw [if_neg (by omega : ¬ tblWidth tbl < 4)]
  cases cal_table with
  | false => rfl
  | true =>
    obtain ⟨h0, h6⟩ := hcal rfl
    subst h0
    rw [if_pos rfl]
    rw [if_neg (show ¬ (0 : ℕ) ≠ 0 by simp)]
    rw [if_neg (show ¬ tblWidth tbl < 6 by omega)]

lemma insertSorted_length (a : ℚ) (l : List ℚ) :
    (insertSorted a l).length = l.length + 1 := by
  induction l with
  | nil => rfl
  | cons b t ih =>
    unfold insertSorted
    split
    · simp
    · simp [ih]

lemma sortAsc_length (l : List ℚ) : (sortAsc l).length = l.length := by
  induction l with
  | nil => rfl
  | cons a t ih =>
    show (insertSorted a (sortAsc t)).length = t.length + 1
    rw [insertSorted_length, ih]

lemma np_unique_ne_nil (l : List ℚ) (h : l ≠ []) : np_unique l ≠ [] := by
  unfold np_unique
  rw [Ne, List.dedup_eq_nil]
  intro hs
  apply h
  have hl : l.length = 0 := by
    rw [← sortAsc_length l, hs]
    rfl
  exact List.length_eq_zero.mp hl

lemma np_linspace_length (a b : ℚ) (n : ℕ) : (np_linspace a b n).length = n := by
  unfold np_linspace
  rw [List.length_map, List.length_range]

lemma np_linspace_getD (a b : ℚ) (n i : ℕ) (h : i < n) :
    (np_linspace a b n).getD i 0 = a + (i : ℚ) * ((b - a) / ((n - 1 : ℕ) : ℚ)) := by
  unfold np_linspace
  have hlen : i < ((List.range n).map
      fun i : ℕ => a + (i : ℚ) * ((b - a) / ((n - 1 : ℕ) : ℚ))).length := by
    rw [List.length_map, List.length_range]
    exact h
  rw [List.getD_eq_getElem _ _ hlen]
  simp only [List.getElem_map, List.getElem_range]

/-- C1 counterexample: a uniform 2-column table is a malformed input in the
sense of the specification (its rows do not provide the 6 numeric fields) and
the load aborts on it with the column-access IndexError at line 134, yet the
geometry fields have already been overwritten by then: the instance is not
left in its prior state. -/
theorem load_malformed_input_mutates_counterexample :
    (ScanData.load_csv_data ScanData.init tableTwoCols true 0).2 =
        some LoadError.malformedInput ∧
      (ScanData.load_csv_data ScanData.init tableTwoCols true 0).1 ≠ ScanData.init ∧
      (ScanData.load_csv_data ScanData.init tableTwoCols true 0).1.x_points = some 2 := by
  decide

/-- C1 amended: a load that fails while reading the table or extracting the
two coordinate columns (empty input, a single row, ragged rows, fewer than 2
columns, non-numeric fields) leaves the instance exactly in its prior state,
because all those failures precede the first field assignment. (A uniform
table with 2 to 5 columns, by contrast, fails only at the transmission or
reference column extraction, after the geometry fields were overwritten; and
grid-inference failures never occur because no such check exists.) -/
theorem load_preparse_failure_preserves_state (st : ScanData) (tbl : List (List ℚ))
    (cal_table : Bool) (cal_smooth : ℕ) (hp : ¬ parseOk tbl) :
    ScanData.load_csv_data st tbl cal_table cal_smooth =
      (st, some LoadError.malformedInput) := by
  unfold ScanData.load_csv_data
  rw [if_neg hp]

theorem load_preparse_failure_preserves_state_witness :
    ¬ parseOk [[1, 2, 3, 4, 5, 6]] ∧
      ScanData.load_csv_data ScanData.init [[1, 2, 3, 4, 5, 6]] true 0 =
        (ScanData.init, some LoadError.malformedInput) :=
  ⟨by decide, load_preparse_failure_preserves_state ScanData.init [[1, 2, 3, 4, 5, 6]]
    true 0 (by decide)⟩

/-- C3 counterexample: on a table whose x column has a single unique value the
load does not raise InsufficientGridError; it proceeds (the step division
0.0/0 merely warns and yields NaN) and fails with the AttributeError at the
np.griddata call. -/
theorem single_unique_x_error_counterexample :
    (np_unique (tblCol tableSingleX 0)).length = 1 ∧
      (ScanData.load_csv_data ScanData.init tableSingleX true 0).2 ≠
        some LoadError.insufficientGrid ∧
      (ScanData.load_csv_data ScanData.init tableSingleX true 0).2 =
        some LoadError.attributeError ∧
      (ScanData.load_csv_data ScanData.init tableSingleX true 0).1.x_step =
        some NpFloat.nan := by
  decide

/-- C3 amended: the loader has no grid-sufficiency check. For every parse-
accepted table with at least 6 columns loaded without calibration smoothing,
a unique-value count below 2 on an axis does not raise InsufficientGridError:
the step field of that axis is set to NaN (numpy evaluates 0.0/0 with a
warning) and the load then fails with the AttributeError at the np.griddata
call, like every load that reaches interpolation. -/
theorem insufficient_grid_not_checked (st : ScanData) (tbl : List (List ℚ))
    (cal_table : Bool) (hp : parseOk tbl) (hw : 6 ≤ tblWidth tbl) :
    (ScanData.load_csv_data st tbl cal_table 0).2 = some LoadError.attributeError ∧
      (ScanData.load_csv_data st tbl cal_table 0).2 ≠ some LoadError.insufficientGrid ∧
      ((np_unique (tblCol tbl 0)).length < 2 →
        (ScanData.load_csv_data st tbl cal_table 0).1.x_step = some NpFloat.nan) ∧
      ((np_unique (tblCol tbl 1)).length < 2 →
        (ScanData.load_csv_data st tbl cal_table 0).1.y_step = some NpFloat.nan) := by
  have herr := load_csv_data_snd_attributeError st tbl cal_table 0 hp (by omega)
    (fun _ => ⟨rfl, hw⟩)
  have hfst := load_csv_data_fst st tbl cal_table 0 hp
  have hnonempty : ∀ j, np_unique (tblCol tbl j) ≠ [] := by
    intro j
    apply np_unique_ne_nil
    simp only [tblCol, Ne, List.map_eq_nil_iff]
    intro hnil
    obtain ⟨h2, -, -⟩ := hp
    rw [hnil] at h2
    simp at h2
  refine ⟨herr, by rw [herr]; simp, ?_, ?_⟩
  · intro hlt
    have h1 : (np_unique (tblCol tbl 0)).length = 1 := by
      have := List.length_pos.mpr (hnonempty 0)
      omega
    rw [hfst]
    show some (if (np_unique (tblCol tbl 0)).length = 1 then NpFloat.nan else _) = _
    rw [if_pos h1]
  · intro hlt
    have h1 : (np_unique (tblCol tbl 1)).length = 1 := by
      have := List.length_pos.mpr (hnonempty 1)
      omega
    rw [hfst]
    show some (if (np_unique (tblCol tbl 1)).length = 1 then NpFloat.nan else _) = _
    rw [if_pos h1]

theorem insufficient_grid_not_checked_witness :
    parseOk tableSingleX ∧ 6 ≤ tblWidth tableSingleX ∧
      ((ScanData.load_csv_data ScanData.init tableSingleX true 0).2 =
          some LoadError.attributeError ∧
        (ScanData.load_csv_data ScanData.init tableSingleX true 0).2 ≠
          some LoadError.insufficientGrid ∧
        ((np_unique (tblCol tableSingleX 0)).length < 2 →
          (ScanData.load_csv_data ScanData.init tableSingleX true 0).1.x_step =
            some NpFloat.nan) ∧
        ((np_unique (tblCol tableSingleX 1)).length < 2 →
          (ScanData.load_csv_data ScanData.init tableSingleX true 0).1.y_step =
            some NpFloat.nan)) :=
  ⟨by decide, by decide,
    insufficient_grid_not_checked ScanData.init tableSingleX true (by decide) (by decide)⟩

/-- C4 counterexample: the 19-row table (a 4 by 5 raster missing one row) has
a row count different from x_points * y_points = 20, yet the load does not
raise GridMismatchError; it fails with the AttributeError at the np.griddata
call. -/
theorem row_count_mismatch_error_counterexample :
    table19.length = 19 ∧
      (np_unique (tblCol table19 0)).length * (np_unique (tblCol table19 1)).length =
        20 ∧
      (ScanData.load_csv_data ScanData.init table19 true 0).2 ≠
        some LoadError.gridMismatch ∧
      (ScanData.load_csv_data ScanData.init table19 true 0).2 =
        some LoadError.attributeError := by
  decide

/-- C4 amended: the loader never compares the row count with
x_points * y_points. For every parse-accepted table with at least 6 columns
loaded without calibration smoothing, a row count different from
x_points * y_points does not raise GridMismatchError: the load fails with the
AttributeError at the np.griddata call, exactly like every load that reaches
interpolation. -/
theorem grid_mismatch_not_checked (st : ScanData) (tbl : List (List ℚ))
    (cal_table : Bool) (hp : parseOk tbl) (hw : 6 ≤ tblWidth tbl)
    (hm : tbl.length ≠
      (np_unique (tblCol tbl 0)).length * (np_unique (tblCol tbl 1)).length) :
    (ScanData.load_csv_data st tbl cal_table 0).2 = some LoadError.attributeError ∧
      (ScanData.load_csv_data st tbl cal_table 0).2 ≠ some LoadError.gridMismatch := by
  have herr := load_csv_data_snd_attributeError st tbl cal_table 0 hp (by omega)
    (fun _ => ⟨rfl, hw⟩)
  exact ⟨herr, by rw [herr]; simp⟩

theorem grid_mismatch_not_checked_witness :
    parseOk table19 ∧ 6 ≤ tblWidth table19 ∧
      table19.length ≠
        (np_unique (tblCol table19 0)).length * (np_unique (tblCol table19 1)).length ∧
      ((ScanData.load_csv_data ScanData.init table19 true 0).2 =
          some LoadError.attributeError ∧
        (ScanData.load_csv_data ScanData.init table19 true 0).2 ≠
          some LoadError.gridMismatch) :=
  ⟨by decide, by decide, by decide,
    grid_mismatch_not_checked ScanData.init table19 true (by decide) (by decide)
      (by decide)⟩

/-- C5: evaluation of the code at the specification scenario. Loading the
20-row 4 by 5 raster does set x_points = 4, y_points = 5, x_step = 1.0,
y_step = 10.0, x_limits = (0, 3), y_limits = (0, 40) — exactly the claimed
values — but the load is never successful: it raises the AttributeError at
the np.griddata call after those assignments, leaving s21 and cal_table
untouched (here still None). -/
theorem scenario_raster_geometry_then_attribute_error :
    ScanData.load_csv_data ScanData.init table20 true 0 =
      ({ x_limits := some (0, 3), y_limits := some (0, 40), x_points := some 4,
         y_points := some 5, x_step := some (NpFloat.val 1),
         y_step := some (NpFloat.val 10), s21 := none, cal_table := none },
        some LoadError.attributeError) := by
  have hp : parseOk table20 := by decide
  have hx : np_unique (tblCol table20 0) = [0, 1, 2, 3] := by decide
  have hy : np_unique (tblCol table20 1) = [0, 10, 20, 30, 40] := by decide
  have hxmin : np_amin [(0 : ℚ), 1, 2, 3] = 0 := by decide
  have hxmax : np_amax [(0 : ℚ), 1, 2, 3] = 3 := by decide
  have hymin : np_amin [(0 : ℚ), 10, 20, 30, 40] = 0 := by decide
  have hymax : np_amax [(0 : ℚ), 10, 20, 30, 40] = 40 := by decide
  refine Prod.ext ?_ ?_
  · rw [load_csv_data_fst ScanData.init table20 true 0 hp]
    have hform : loadGeometry ScanData.init table20 = ScanData.mk
        (some (np_amin (np_unique (tblCol table20 0)),
          np_amax (np_unique (tblCol table20 0))))
        (some (np_amin (np_unique (tblCol table20 1)),
          np_amax (np_unique (tblCol table20 1))))
        (some (np_unique (tblCol table20 0)).length)
        (some (np_unique (tblCol table20 1)).length)
        (some (if (np_unique (tblCol table20 0)).length = 1 then NpFloat.nan
          else NpFloat.val (np_ptp (np_unique (tblCol table20 0)) /
            (((np_unique (tblCol table20 0)).length - 1 : ℕ) : ℚ))))
        (some (if (np_unique (tblCol table20 1)).length = 1 then NpFloat.nan
          else NpFloat.val (np_ptp (np_unique (tblCol table20 1)) /
            (((np_unique (tblCol table20 1)).length - 1 : ℕ) : ℚ))))
        none none := rfl
    rw [hform, hx, hy]
    norm_num [np_ptp, hxmin, hxmax, hymin, hymax]
  · exact load_csv_data_snd_attributeError ScanData.init table20 true 0 hp (by decide)
      (fun _ => ⟨rfl, by decide⟩)

/-- C6: no call of load_csv_data ever assigns s21 or cal_table — every path
either aborts before line 134 or raises while resolving the callee of the
assignment (NameError for the bare kaiser_smooth, AttributeError for
np.griddata) — so both fields always keep their prior values and no load
establishes the claimed shape relation. -/
theorem load_never_writes_s21_or_cal_table (st : ScanData) (tbl : List (List ℚ))
    (cal_table : Bool) (cal_smooth : ℕ) :
    (ScanData.load_csv_data st tbl cal_table cal_smooth).1.s21 = st.s21 ∧
      (ScanData.load_csv_data st tbl cal_table cal_smooth).1.cal_table =
        st.cal_table := by
  unfold ScanData.load_csv_data
  split
  · exact ⟨rfl, rfl⟩
  · exact ⟨rfl, rfl⟩

/-- C7: after any load that passes the parse stage (so that the geometry
assignments execute) with at least 2 unique values on each axis, the derived
accessors satisfy the claimed invariants exactly: x_values has x_points
entries, its first and last entries are the two stored x limits, and the
difference of its first two entries equals the stored x_step; symmetrically
for y. Exactness holds because the accessors recompute the linspace from the
same stored limits and point counts. -/
theorem loaded_accessor_invariants (st : ScanData) (tbl : List (List ℚ))
    (cal_table : Bool) (cal_smooth : ℕ) (hp : parseOk tbl)
    (hx : 2 ≤ (np_unique (tblCol tbl 0)).length)
    (hy : 2 ≤ (np_unique (tblCol tbl 1)).length) :
    ∃ xs ys a b c d qx qy,
      (ScanData.load_csv_data st tbl cal_table cal_smooth).1.x_values = some xs ∧
      (ScanData.load_csv_data st tbl cal_table cal_smooth).1.y_values = some ys ∧
      (ScanData.load_csv_data st tbl cal_table cal_smooth).1.x_limits = some (a, b) ∧
      (ScanData.load_csv_data st tbl cal_table cal_smooth).1.y_limits = some (c, d) ∧
      (ScanData.load_csv_data st tbl cal_table cal_smooth).1.x_points =
        some xs.length ∧
      (ScanData.load_csv_data st tbl cal_table cal_smooth).1.y_points =
        some ys.length ∧
      (ScanData.load_csv_data st tbl cal_table cal_smooth).1.x_step =
        some (NpFloat.val qx) ∧
      (ScanData.load_csv_data st tbl cal_table cal_smooth).1.y_step =
        some (NpFloat.val qy) ∧
      xs.getD 0 0 = a ∧ xs.getD (xs.length - 1) 0 = b ∧
      ys.getD 0 0 = c ∧ ys.getD (ys.length - 1) 0 = d ∧
      xs.getD 1 0 - xs.getD 0 0 = qx ∧ ys.getD 1 0 - ys.getD 0 0 = qy := by
  rw [load_csv_data_fst st tbl cal_table cal_smooth hp]
  set xu := np_unique (tblCol tbl 0) with hxu
  set yu := np_unique (tblCol tbl 1) with hyu
  have hnex : xu.length ≠ 1 := by omega
  have hney : yu.length ≠ 1 := by omega
  have hcx : ((xu.length - 1 : ℕ) : ℚ) ≠ 0 := by
    rw [Nat.cast_ne_zero]
    omega
  have hcy : ((yu.length - 1 : ℕ) : ℚ) ≠ 0 := by
    rw [Nat.cast_ne_zero]
    omega
  refine ⟨np_linspace (np_amin xu) (np_amax xu) xu.length,
    np_linspace (np_amin yu) (np_amax yu) yu.length,
    np_amin xu, np_amax xu, np_amin yu, np_amax yu,
    np_ptp xu / ((xu.length - 1 : ℕ) : ℚ), np_ptp yu / ((yu.length - 1 : ℕ) : ℚ),
    rfl, rfl, rfl, rfl, ?_, ?_, ?_, ?_, ?_, ?_, ?_, ?_, ?_, ?_⟩
  · rw [np_linspace_length]
    exact rfl
  · rw [np_linspace_length]
    exact rfl
  · show some (if xu.length = 1 then NpFloat.nan else _) = _
    rw [if_neg hnex]
  · show some (if yu.length = 1 then NpFloat.nan else _) = _
    rw [if_neg hney]
  · rw [np_linspace_getD _ _ _ 0 (by omega)]
    push_cast
    ring
  · rw [np_linspace_length, np_linspace_getD _ _ _ (xu.length - 1) (by omega)]
    rw [mul_comm, div_mul_cancel₀ _ hcx]
    ring
  · rw [np_linspace_getD _ _ _ 0 (by omega)]
    push_cast
    ring
  · rw [np_linspace_length, np_linspace_getD _ _ _ (yu.length - 1) (by omega)]
    rw [mul_comm, div_mul_cancel₀ _ hcy]
    ring
  · rw [np_linspace_getD _ _ _ 1 (by omega), np_linspace_getD _ _ _ 0 (by omega)]
    simp only [np_ptp]
    push_cast
    ring
  · rw [np_linspace_getD _ _ _ 1 (by omega), np_linspace_getD _ _ _ 0 (by omega)]
    simp only [np_ptp]
    push_cast
    ring

theorem loaded_accessor_invariants_witness :
    parseOk table20 ∧ 2 ≤ (np_unique (tblCol table20 0)).length ∧
      2 ≤ (np_unique (tblCol table20 1)).length ∧
      (∃ xs ys a b c d qx qy,
        (ScanData.load_csv_data ScanData.init table20 true 0).1.x_values = some xs ∧
        (ScanData.load_csv_data ScanData.init table20 true 0).1.y_values = some ys ∧
        (ScanData.load_csv_data ScanData.init table20 true 0).1.x_limits =
          some (a, b) ∧
        (ScanData.load_csv_data ScanData.init table20 true 0).1.y_limits =
          some (c, d) ∧
        (ScanData.load_csv_data ScanData.init table20 true 0).1.x_points =
          some xs.length ∧
        (ScanData.load_csv_data ScanData.init table20 true 0).1.y_points =
          some ys.length ∧
        (ScanData.load_csv_data ScanData.init table20 true 0).1.x_step =
          some (NpFloat.val qx) ∧
        (ScanData.load_csv_data ScanData.init table20 true 0).1.y_step =
          some (NpFloat.val qy) ∧
        xs.getD 0 0 = a ∧ xs.getD (xs.length - 1) 0 = b ∧
        ys.getD 0 0 = c ∧ ys.getD (ys.length - 1) 0 = d ∧
        xs.getD 1 0 - xs.getD 0 0 = qx ∧ ys.getD 1 0 - ys.getD 0 0 = qy) :=
  ⟨by decide, by decide, by decide,
    loaded_accessor_invariants ScanData.init table20 true 0 (by decide) (by decide)
      (by decide)⟩

/-- C9: every call of load_csv_data that reaches the interpolation step (the
parse stage passed, the transmission columns exist, and, when calibration is
requested, smoothing is off and the reference columns exist) raises the
AttributeError from the nonexistent np.griddata before s21 is assigned; the
geometry fields were reassigned before that point, so the failed load leaves
the instance with the new geometry and the previous s21. -/
theorem interpolation_attribute_error_leaves_new_geometry_old_s21
    (st : ScanData) (tbl : List (List ℚ)) (cal_table : Bool) (cal_smooth : ℕ)
    (hp : parseOk tbl) (h4 : 4 ≤ tblWidth tbl)
    (hcal : cal_table = true → cal_smooth = 0 ∧ 6 ≤ tblWidth tbl) :
    (ScanData.load_csv_data st tbl cal_table cal_smooth).2 =
        some LoadError.attributeError ∧
      (ScanData.load_csv_data st tbl cal_table cal_smooth).1.s21 = st.s21 ∧
      (ScanData.load_csv_data st tbl cal_table cal_smooth).1.x_points =
        some (np_unique (tblCol tbl 0)).length ∧
      (ScanData.load_csv_data st tbl cal_table cal_smooth).1.y_points =
        some (np_unique (tblCol tbl 1)).length ∧
      (ScanData.load_csv_data st tbl cal_table cal_smooth).1.x_limits =
        some (np_amin (np_unique (tblCol tbl 0)), np_amax (np_unique (tblCol tbl 0))) ∧
      (ScanData.load_csv_data st tbl cal_table cal_smooth).1.y_limits =
        some (np_amin (np_unique (tblCol tbl 1)), np_amax (np_unique (tblCol tbl 1))) := by
  have hfst := load_csv_data_fst st tbl cal_table cal_smooth hp
  refine ⟨load_csv_data_snd_attributeError st tbl cal_table cal_smooth hp h4 hcal,
    ?_, ?_, ?_, ?_, ?_⟩ <;> rw [hfst] <;> exact rfl

theorem interpolation_attribute_error_witness :
    parseOk table20 ∧ 4 ≤ tblWidth table20 ∧
      ((ScanData.load_csv_data
          { ScanData.init with s21 := some [[((5 : ℚ), (6 : ℚ))]] } table20 true 0).2 =
          some LoadError.attributeError ∧
        (ScanData.load_csv_data
          { ScanData.init with s21 := some [[((5 : ℚ), (6 : ℚ))]] } table20 true 0).1.s21 =
          ({ ScanData.init with s21 := some [[((5 : ℚ), (6 : ℚ))]] } : ScanData).s21 ∧
        (ScanData.load_csv_data
          { ScanData.init with s21 := some [[((5 : ℚ), (6 : ℚ))]] } table20 true 0).1.x_points =
          some (np_unique (tblCol table20 0)).length ∧
        (ScanData.load_csv_data
          { ScanData.init with s21 := some [[((5 : ℚ), (6 : ℚ))]] } table20 true 0).1.y_points =
          some (np_unique (tblCol table20 1)).length ∧
        (ScanData.load_csv_data
          { ScanData.init with s21 := some [[((5 : ℚ), (6 : ℚ))]] } table20 true 0).1.x_limits =
          some (np_amin (np_unique (tblCol table20 0)),
            np_amax (np_unique (tblCol table20 0))) ∧
        (ScanData.load_csv_data
          { ScanData.init with s21 := some [[((5 : ℚ), (6 : ℚ))]] } table20 true 0).1.y_limits =
          some (np_amin (np_unique (tblCol table20 1)),
            np_amax (np_unique (tblCol table20 1)))) :=
  ⟨by decide, by decide,
    interpolation_attribute_error_leaves_new_geometry_old_s21
      { ScanData.init with s21 := some [[((5 : ℚ), (6 : ℚ))]] } table20 true 0
      (by decide) (by decide) (fun _ => ⟨rfl, by decide⟩)⟩

/-- C10: every call with cal_table true and a truthy cal_smooth raises
NameError in the calibration-smoothing branch, because line 138 references
kaiser_smooth as a bare name that is not defined at module scope (it exists
only as a static method of ScanData), so calibration smoothing can never be
applied: cal_table keeps its prior value. -/
theorem cal_smoothing_branch_raises_name_error (st : ScanData)
    (tbl : List (List ℚ)) (cal_smooth : ℕ) (hp : parseOk tbl)
    (h4 : 4 ≤ tblWidth tbl) (hs : cal_smooth ≠ 0) :
    (ScanData.load_csv_data st tbl true cal_smooth).2 = some LoadError.nameError ∧
      (ScanData.load_csv_data st tbl true cal_smooth).1.cal_table = st.cal_table := by
  constructor
  · unfold ScanData.load_csv_data
    rw [if_pos hp]
    simp only
    rw [if_neg (show ¬ tblWidth tbl < 4 by omega)]
    simp only [if_true]
    rw [if_pos hs]
  · rw [load_csv_data_fst st tbl true cal_smooth hp]
    rfl

theorem cal_smoothing_branch_raises_name_error_witness :
    parseOk table20 ∧ 4 ≤ tblWidth table20 ∧ (3 : ℕ) ≠ 0 ∧
      ((ScanData.load_csv_data
          { ScanData.init with cal_table := some [[((9 : ℚ), (9 : ℚ))]] } table20 true 3).2 =
          some LoadError.nameError ∧
        (ScanData.load_csv_data
          { ScanData.init with cal_table := some [[((9 : ℚ), (9 : ℚ))]] } table20 true 3).1.cal_table =
          ({ ScanData.init with cal_table := some [[((9 : ℚ), (9 : ℚ))]] } : ScanData).cal_table) :=
  ⟨by decide, by decide, by decide,
    cal_smoothing_branch_raises_name_error
      { ScanData.init with cal_table := some [[((9 : ℚ), (9 : ℚ))]] } table20 3
      (by decide) (by decide) (by decide)⟩
